import Mathlib

/-!
Verification of the proplot internals excerpt: the rc-setting alias closure
and migration tables (`proplot/internals/defaults.py`) and the argument
resolution utilities (`proplot/internals/__init__.py`), shallowly embedded.

Python dicts are modelled as insertion-ordered association lists, Python
`None` as `Option.none`, and raised exceptions as `Except.error`.
-/

namespace Proplot

/-! ## Children tables (defaults.py) -/

/-- The children table: an insertion-ordered association list from a setting
key to its tuple of child keys, mirroring the Python dict `_rc_children`. -/
abbrev ChildTable := List (String × List String)

/-- Python `d.get(k, ())` on a children dict: the stored tuple, or empty. -/
def tableGet (d : ChildTable) (k : String) : List String :=
  match d.find? (fun p => p.1 == k) with
  | some p => p.2
  | none => []

/-- Python `d[k] = v` on a dict: replace the value in place when the key is
present, append otherwise, preserving insertion order. -/
def tableSet (d : ChildTable) (k : String) (v : List String) : ChildTable :=
  if d.any (fun p => p.1 == k) then
    d.map (fun p => if p.1 == k then (k, v) else p)
  else
    d ++ [(k, v)]

/-- Strict lexicographic order on code points for one character. -/
def charLt (a b : Char) : Bool := Nat.blt a.toNat b.toNat

/-- Strict lexicographic order on code-point sequences: the order Python `<`
and `sorted` use on strings. -/
def charListLt : List Char → List Char → Bool
  | _, [] => false
  | [], _ :: _ => true
  | a :: as, b :: bs => charLt a b || (a == b && charListLt as bs)

/-- Python string comparison `a < b`. -/
def strLt (a b : String) : Bool := charListLt a.data b.data

/-- Insert a string into a sorted duplicate-free list, keeping it sorted and
duplicate-free (code-point order, as Python `sorted` on these keys). -/
def insertSorted (s : String) : List String → List String
  | [] => [s]
  | t :: ts =>
    if s == t then t :: ts
    else if strLt s t then s :: t :: ts
    else t :: insertSorted s ts

/-- Python `tuple(sorted(someSet))`: the sorted duplicate-free list of the inputs. -/
def sortedDedup (l : List String) : List String :=
  l.foldr insertSorted []

/-- One iteration of the inner loop at defaults.py:1454-1456:
`_set = \x7b_ for k in _keys for _ in \x7bk, *_rc_children.get(k, ())\x7d\x7d - \x7b_key\x7d`
followed by `_rc_children[_key] = tuple(sorted(_set))`. -/
def synonymStep (keys : List String) (d : ChildTable) (key : String) : ChildTable :=
  tableSet d key
    (sortedDedup ((keys.flatMap (fun k => k :: tableGet d k)).filter (fun s => s != key)))

/-- The alias-closure pass at defaults.py:1453-1456: a single sequential sweep
over the synonym groups, updating the children table in place as it goes. -/
def aliasClosure (synonyms : List (List String)) (children : ChildTable) : ChildTable :=
  synonyms.foldl (fun d keys => keys.foldl (synonymStep keys) d) children

/-- The table `_rc_children` (defaults.py lines 1370-1399), before the synonym pass.
The version-conditional extension (lines 1404-1414) is gated on the host
matplotlib and is not part of the static table. -/
def rcChildren : ChildTable := [
  ("font.smallsize", ["tick.labelsize", "xtick.labelsize", "ytick.labelsize",
    "axes.labelsize", "legend.fontsize", "grid.labelsize"]),
  ("font.largesize", ["abc.size", "figure.titlesize", "suptitle.size", "axes.titlesize",
    "title.size", "leftlabel.size", "toplabel.size", "rightlabel.size", "bottomlabel.size"]),
  ("meta.color", ["axes.edgecolor", "axes.labelcolor", "legend.edgecolor",
    "colorbar.edgecolor", "tick.labelcolor", "hatch.color", "xtick.color", "ytick.color"]),
  ("meta.width", ["axes.linewidth", "tick.width", "tick.linewidth", "xtick.major.width",
    "ytick.major.width", "grid.width", "grid.linewidth"]),
  ("axes.margin", ["axes.xmargin", "axes.ymargin"]),
  ("grid.color", ["gridminor.color", "grid.labelcolor"]),
  ("grid.alpha", ["gridminor.alpha"]),
  ("grid.linewidth", ["gridminor.linewidth"]),
  ("grid.linestyle", ["gridminor.linestyle"]),
  ("tick.color", ["xtick.color", "ytick.color"]),
  ("tick.dir", ["xtick.direction", "ytick.direction"]),
  ("tick.len", ["xtick.major.size", "ytick.major.size"]),
  ("tick.minor", ["xtick.minor.visible", "ytick.minor.visible"]),
  ("tick.pad", ["xtick.major.pad", "xtick.minor.pad", "ytick.major.pad", "ytick.minor.pad"]),
  ("tick.width", ["xtick.major.width", "ytick.major.width"]),
  ("tick.labelsize", ["xtick.labelsize", "ytick.labelsize"])]

/-- The table `_rc_synonyms` (defaults.py lines 1419-1452). -/
def rcSynonyms : List (List String) := [
  ["cmap", "image.cmap", "cmap.sequential"],
  ["cmap.lut", "image.lut"],
  ["font.name", "font.family"],
  ["font.small", "font.smallsize"],
  ["font.large", "font.largesize"],
  ["formatter.limits", "axes.formatter.limits"],
  ["formatter.use_locale", "axes.formatter.use_locale"],
  ["formatter.use_mathtext", "axes.formatter.use_mathtext"],
  ["formatter.min_exponent", "axes.formatter.min_exponent"],
  ["formatter.use_offset", "axes.formatter.useoffset"],
  ["formatter.offset_threshold", "axes.formatter.offset_threshold"],
  ["grid.below", "axes.axisbelow"],
  ["grid.labelpad", "grid.pad"],
  ["grid.linewidth", "grid.width"],
  ["grid.linestyle", "grid.style"],
  ["gridminor.linewidth", "gridminor.width"],
  ["gridminor.linestyle", "gridminor.style"],
  ["label.color", "axes.labelcolor"],
  ["label.pad", "axes.labelpad"],
  ["label.size", "axes.labelsize"],
  ["label.weight", "axes.labelweight"],
  ["margin", "axes.margin"],
  ["meta.width", "meta.linewidth"],
  ["meta.color", "meta.edgecolor"],
  ["tick.labelpad", "tick.pad"],
  ["tick.labelsize", "grid.labelsize"],
  ["tick.labelcolor", "grid.labelcolor"],
  ["tick.labelweight", "grid.labelweight"],
  ["tick.linewidth", "tick.width"],
  ["title.pad", "axes.titlepad"],
  ["title.size", "axes.titlesize"],
  ["title.weight", "axes.titleweight"]]

/-- The children table after the synonym pass at defaults.py:1453-1456. -/
def rcChildrenClosed : ChildTable := aliasClosure rcSynonyms rcChildren

/-- The value of `rcChildrenClosed`, spelled out, so that facts about many of
its entries can be checked without re-running the pass for each entry. -/
def rcChildrenClosedLit : ChildTable := [
  ("font.smallsize", ["axes.labelsize", "font.small", "grid.labelsize", "legend.fontsize", "tick.labelsize", "xtick.labelsize", "ytick.labelsize"]),
  ("font.largesize", ["abc.size", "axes.titlesize", "bottomlabel.size", "figure.titlesize", "font.large", "leftlabel.size", "rightlabel.size", "suptitle.size", "title.size", "toplabel.size"]),
  ("meta.color", ["axes.edgecolor", "axes.labelcolor", "colorbar.edgecolor", "hatch.color", "legend.edgecolor", "meta.edgecolor", "tick.labelcolor", "xtick.color", "ytick.color"]),
  ("meta.width", ["axes.linewidth", "grid.linewidth", "grid.width", "meta.linewidth", "tick.linewidth", "tick.width", "xtick.major.width", "ytick.major.width"]),
  ("axes.margin", ["axes.xmargin", "axes.ymargin", "margin"]),
  ("grid.color", ["gridminor.color", "grid.labelcolor"]),
  ("grid.alpha", ["gridminor.alpha"]),
  ("grid.linewidth", ["grid.width", "gridminor.linewidth"]),
  ("grid.linestyle", ["grid.style", "gridminor.linestyle"]),
  ("tick.color", ["xtick.color", "ytick.color"]),
  ("tick.dir", ["xtick.direction", "ytick.direction"]),
  ("tick.len", ["xtick.major.size", "ytick.major.size"]),
  ("tick.minor", ["xtick.minor.visible", "ytick.minor.visible"]),
  ("tick.pad", ["tick.labelpad", "xtick.major.pad", "xtick.minor.pad", "ytick.major.pad", "ytick.minor.pad"]),
  ("tick.width", ["tick.linewidth", "xtick.major.width", "ytick.major.width"]),
  ("tick.labelsize", ["grid.labelsize", "xtick.labelsize", "ytick.labelsize"]),
  ("cmap", ["cmap.sequential", "image.cmap"]),
  ("image.cmap", ["cmap", "cmap.sequential"]),
  ("cmap.sequential", ["cmap", "image.cmap"]),
  ("cmap.lut", ["image.lut"]),
  ("image.lut", ["cmap.lut"]),
  ("font.name", ["font.family"]),
  ("font.family", ["font.name"]),
  ("font.small", ["axes.labelsize", "font.smallsize", "grid.labelsize", "legend.fontsize", "tick.labelsize", "xtick.labelsize", "ytick.labelsize"]),
  ("font.large", ["abc.size", "axes.titlesize", "bottomlabel.size", "figure.titlesize", "font.largesize", "leftlabel.size", "rightlabel.size", "suptitle.size", "title.size", "toplabel.size"]),
  ("formatter.limits", ["axes.formatter.limits"]),
  ("axes.formatter.limits", ["formatter.limits"]),
  ("formatter.use_locale", ["axes.formatter.use_locale"]),
  ("axes.formatter.use_locale", ["formatter.use_locale"]),
  ("formatter.use_mathtext", ["axes.formatter.use_mathtext"]),
  ("axes.formatter.use_mathtext", ["formatter.use_mathtext"]),
  ("formatter.min_exponent", ["axes.formatter.min_exponent"]),
  ("axes.formatter.min_exponent", ["formatter.min_exponent"]),
  ("formatter.use_offset", ["axes.formatter.useoffset"]),
  ("axes.formatter.useoffset", ["formatter.use_offset"]),
  ("formatter.offset_threshold", ["axes.formatter.offset_threshold"]),
  ("axes.formatter.offset_threshold", ["formatter.offset_threshold"]),
  ("grid.below", ["axes.axisbelow"]),
  ("axes.axisbelow", ["grid.below"]),
  ("grid.labelpad", ["grid.pad"]),
  ("grid.pad", ["grid.labelpad"]),
  ("grid.width", ["grid.linewidth", "gridminor.linewidth"]),
  ("grid.style", ["grid.linestyle", "gridminor.linestyle"]),
  ("gridminor.linewidth", ["gridminor.width"]),
  ("gridminor.width", ["gridminor.linewidth"]),
  ("gridminor.linestyle", ["gridminor.style"]),
  ("gridminor.style", ["gridminor.linestyle"]),
  ("label.color", ["axes.labelcolor"]),
  ("axes.labelcolor", ["label.color"]),
  ("label.pad", ["axes.labelpad"]),
  ("axes.labelpad", ["label.pad"]),
  ("label.size", ["axes.labelsize"]),
  ("axes.labelsize", ["label.size"]),
  ("label.weight", ["axes.labelweight"]),
  ("axes.labelweight", ["label.weight"]),
  ("margin", ["axes.margin", "axes.xmargin", "axes.ymargin"]),
  ("meta.linewidth", ["axes.linewidth", "grid.linewidth", "grid.width", "meta.width", "tick.linewidth", "tick.width", "xtick.major.width", "ytick.major.width"]),
  ("meta.edgecolor", ["axes.edgecolor", "axes.labelcolor", "colorbar.edgecolor", "hatch.color", "legend.edgecolor", "meta.color", "tick.labelcolor", "xtick.color", "ytick.color"]),
  ("tick.labelpad", ["tick.pad", "xtick.major.pad", "xtick.minor.pad", "ytick.major.pad", "ytick.minor.pad"]),
  ("grid.labelsize", ["tick.labelsize", "xtick.labelsize", "ytick.labelsize"]),
  ("tick.labelcolor", ["grid.labelcolor"]),
  ("grid.labelcolor", ["tick.labelcolor"]),
  ("tick.labelweight", ["grid.labelweight"]),
  ("grid.labelweight", ["tick.labelweight"]),
  ("tick.linewidth", ["tick.width", "xtick.major.width", "ytick.major.width"]),
  ("title.pad", ["axes.titlepad"]),
  ("axes.titlepad", ["title.pad"]),
  ("title.size", ["axes.titlesize"]),
  ("axes.titlesize", ["title.size"]),
  ("title.weight", ["axes.titleweight"]),
  ("axes.titleweight", ["title.weight"])]

/-! ## Migration tables (defaults.py lines 1465-1522) -/

/-- The table `_rc_proplot_removed` (defaults.py lines 1465-1472): a map from each
removed key to its replacement hint and the version it was removed in. -/
def rcProplotRemoved : List (String × String × String) := [
  ("rgbcycle", "", "0.6.0"),
  ("geogrid.latmax", "Please use ax.format(latmax=N) instead.", "0.6.0"),
  ("geogrid.latstep", "Please use ax.format(latlines=N) instead.", "0.6.0"),
  ("geogrid.lonstep", "Please use ax.format(lonlines=N) instead.", "0.6.0"),
  ("gridminor.latstep", "Please use ax.format(latminorlines=N) instead.", "0.6.0"),
  ("gridminor.lonstep", "Please use ax.format(lonminorlines=N) instead.", "0.6.0")]

/-- The table `_rc_proplot_renamed` (defaults.py lines 1473-1522): a map from each old
key to its new key and the version it was renamed in. -/
def rcProplotRenamed : List (String × String × String) := [
  ("abc.format", "abc", "0.5.0"),
  ("align", "subplots.align", "0.6.0"),
  ("axes.facealpha", "axes.alpha", "0.6.0"),
  ("geoaxes.edgecolor", "axes.edgecolor", "0.6.0"),
  ("geoaxes.facealpha", "axes.alpha", "0.6.0"),
  ("geoaxes.facecolor", "axes.facecolor", "0.6.0"),
  ("geoaxes.linewidth", "axes.linewidth", "0.6.0"),
  ("geogrid.alpha", "grid.alpha", "0.6.0"),
  ("geogrid.color", "grid.color", "0.6.0"),
  ("geogrid.labels", "grid.labels", "0.6.0"),
  ("geogrid.labelpad", "grid.pad", "0.6.0"),
  ("geogrid.labelsize", "grid.labelsize", "0.6.0"),
  ("geogrid.linestyle", "grid.linestyle", "0.6.0"),
  ("geogrid.linewidth", "grid.linewidth", "0.6.0"),
  ("share", "subplots.share", "0.6.0"),
  ("small", "font.smallsize", "0.6.0"),
  ("large", "font.largesize", "0.6.0"),
  ("span", "subplots.span", "0.6.0"),
  ("tight", "subplots.tight", "0.6.0"),
  ("axes.formatter.timerotation", "formatter.timerotation", "0.6.0"),
  ("axes.formatter.zerotrim", "formatter.zerotrim", "0.6.0"),
  ("abovetop", "title.above", "0.7.0"),
  ("subplots.pad", "subplots.outerpad", "0.7.0"),
  ("subplots.axpad", "subplots.innerpad", "0.7.0"),
  ("subplots.axwidth", "subplots.refwidth", "0.7.0"),
  ("text.labelsize", "font.smallsize", "0.8.0"),
  ("text.titlesize", "font.largesize", "0.8.0"),
  ("alpha", "axes.alpha", "0.8.0"),
  ("facecolor", "axes.facecolor", "0.8.0"),
  ("edgecolor", "meta.color", "0.8.0"),
  ("color", "meta.color", "0.8.0"),
  ("linewidth", "meta.width", "0.8.0"),
  ("lut", "cmap.lut", "0.8.0"),
  ("image.levels", "cmap.levels", "0.8.0"),
  ("image.inbounds", "cmap.inbounds", "0.8.0"),
  ("image.discrete", "cmap.discrete", "0.8.0"),
  ("image.edgefix", "edgefix", "0.8.0"),
  ("tick.ratio", "tick.widthratio", "0.8.0"),
  ("grid.ratio", "grid.widthratio", "0.8.0"),
  ("abc.style", "abc", "0.8.0"),
  ("grid.loninline", "grid.inlinelabels", "0.8.0"),
  ("grid.latinline", "grid.inlinelabels", "0.8.0"),
  ("cmap.edgefix", "edgefix", "0.9.0"),
  ("basemap", "geo.backend", "0.10.0"),
  ("inlinefmt", "inlineformat", "0.10.0"),
  ("cartopy.circular", "geo.round", "0.10.0"),
  ("cartopy.autoextent", "geo.extent", "0.10.0"),
  ("colorbar.rasterize", "colorbar.rasterized", "0.10.0")]

/-- The keys of the removed table together with the keys of the renamed table:
every key retired by a migration entry. -/
def migratedKeys : List String :=
  rcProplotRemoved.map (fun p => p.1) ++ rcProplotRenamed.map (fun p => p.1)

/-- Holds when `pat` is a leading segment of `l`. -/
def leadsList (pat : List Char) (l : List Char) : Bool :=
  match pat, l with
  | [], _ => true
  | _ :: _, [] => false
  | a :: as, b :: bs => a == b && leadsList as bs

/-- Holds when `pat` occurs contiguously somewhere inside `l`. -/
def occursList (pat : List Char) (l : List Char) : Bool :=
  match l with
  | [] => leadsList pat []
  | _ :: cs => leadsList pat l || occursList pat cs

/-- A key counts as mentioned by a hint when it occurs as a substring. -/
def mentionedIn (key hint : String) : Bool :=
  occursList key.data hint.data

/-! ## Argument resolution utilities (internals/__init__.py lines 13-61) -/

/-- A Python value used with the argument helpers; `None` is modelled
separately as `Option.none`. -/
inductive PyVal
  | str (s : String)
  | int (n : Int)
deriving DecidableEq

/-- A keyword dictionary: an insertion-ordered association list whose `none`
values are Python `None` entries. -/
abbrev KwDict := List (String × Option PyVal)

/-- The exceptions the embedded helpers can raise. -/
inductive PyErr
  /-- The ValueError at __init__.py line 44 in `_not_none`. -/
  | argsAndKwargs
  /-- The over-positional ValueError at __init__.py line 21. -/
  | tooManyPositional
  /-- The IndexError from `keys[0]` at line 29 when a slot is an empty tuple. -/
  | indexError
deriving DecidableEq

/-- The function `_not_none` (__init__.py lines 36-61): the first non-None positional or
keyword value, or the default. The conflicting-keyword warning at lines 56-60
is modelled as the second component of the result. -/
def notNone (args : List (Option PyVal)) (kwargs : KwDict) (default : Option PyVal) :
    Except PyErr (Option PyVal × Bool) :=
  if args ≠ [] ∧ kwargs ≠ [] then
    .error .argsAndKwargs
  else if args ≠ [] then
    match args.find? (fun a => a.isSome) with
    | some a => .ok (a, false)
    | none => .ok (default, false)
  else if kwargs ≠ [] then
    let first :=
      match kwargs.find? (fun p => p.2.isSome) with
      | some p => p.2
      | none => default
    .ok (first, decide ((kwargs.filter (fun p => p.2.isSome)).length > 1))
  else
    .ok (default, false)

/-- One slot of `options` in `_kwargs_to_args`: either a bare string or a
tuple of keyword aliases whose first element is canonical. -/
inductive KeySpec
  | str (s : String)
  | tuple (keys : List String)

/-- The `keys = (keys,) if isinstance(keys, str) else keys` normalisation at
__init__.py lines 25-26. -/
def KeySpec.keys : KeySpec → List String
  | .str s => [s]
  | .tuple l => l

/-- Python `kwargs.pop(key, None)` at __init__.py line 31: the popped value (or
`none`) together with the dictionary with that key removed. -/
def popKey (kwargs : KwDict) (k : String) : Option PyVal × KwDict :=
  match kwargs.find? (fun p => p.1 == k) with
  | some p => (p.2, kwargs.eraseP (fun p => p.1 == k))
  | none => (none, kwargs)

/-- Python `opts[key] = v` on a dict: replace in place when present, append
otherwise. -/
def dictSet (d : KwDict) (k : String) (v : Option PyVal) : KwDict :=
  if d.any (fun p => p.1 == k) then
    d.map (fun p => if p.1 == k then (k, v) else p)
  else
    d ++ [(k, v)]

/-- The loop `for key in keys: opts[key] = kwargs.pop(key, None)` at
__init__.py lines 30-31, threading the `opts` dict and the shrinking
`kwargs` dict. -/
def buildOpts (keys : List String) (opts : KwDict) (kwargs : KwDict) : KwDict × KwDict :=
  keys.foldl
    (fun st k =>
      let r := popKey st.2 k
      (dictSet st.1 k r.1, r.2)) (opts, kwargs)

/-- Python `args[idx] = _not_none(**opts)` at __init__.py line 32: resolve the built
`opts` dict, keeping the remaining kwargs. -/
def finishSlot (st : KwDict × KwDict) : Except PyErr (Option PyVal × KwDict) :=
  match notNone [] st.1 none with
  | .error e => .error e
  | .ok vw => .ok (vw.1, st.2)

/-- The body of the loop at __init__.py lines 24-32 for one slot: seed `opts`
with `keys[0] + "_positional"` when the positional value is present (line 29),
pop every keyword alias into `opts` (lines 30-31), then resolve through
`_not_none(**opts)` (line 32). -/
def resolveSlot (spec : KeySpec) (a : Option PyVal) (kwargs : KwDict) :
    Except PyErr (Option PyVal × KwDict) :=
  match a with
  | some v =>
    match spec.keys with
    | [] => .error .indexError
    | k0 :: _ => finishSlot (buildOpts spec.keys [(k0 ++ "_positional", some v)] kwargs)
  | none => finishSlot (buildOpts spec.keys [] kwargs)

/-- The loop of `_kwargs_to_args` over `enumerate(options)` (lines 24-32),
consuming one padded positional argument per slot; positional arguments
beyond the declared slots pass through unchanged. -/
def resolveSlots : List KeySpec → List (Option PyVal) → KwDict →
    Except PyErr (List (Option PyVal) × KwDict)
  | [], args, kwargs => .ok (args, kwargs)
  | spec :: specs, args, kwargs =>
    match resolveSlot spec (args.headD none) kwargs with
    | .error e => .error e
    | .ok (v, kwargs) =>
      match resolveSlots specs args.tail kwargs with
      | .error e => .error e
      | .ok (vs, kwargs) => .ok (v :: vs, kwargs)

/-- The function `_kwargs_to_args` (__init__.py lines 13-33): pad the positional arguments
with `None` up to the number of slots, then resolve slot by slot. -/
def kwargsToArgs (options : List KeySpec) (args : List (Option PyVal))
    (allowExtra : Bool) (kwargs : KwDict) :
    Except PyErr (List (Option PyVal) × KwDict) :=
  if args.length > options.length ∧ allowExtra = false then
    .error .tooManyPositional
  else
    resolveSlots options (args ++ List.replicate (options.length - args.length) none) kwargs

/-- All keyword aliases declared by a list of slots. -/
def declaredAliases (options : List KeySpec) : List String :=
  options.flatMap KeySpec.keys

set_option maxRecDepth 1000000

/-! ## Evaluation lemmas for the concrete tables -/

/-- The synonym pass on the concrete tables evaluates to the spelled-out
closed table `rcChildrenClosedLit`. -/
theorem rcChildrenClosed_eq : rcChildrenClosed = rcChildrenClosedLit := by decide

/-- The synonym pass maps the spelled-out closed table to itself. -/
theorem aliasClosure_fixes_lit :
    aliasClosure rcSynonyms rcChildrenClosedLit = rcChildrenClosedLit := by decide

/-! ## Claims about the alias closure and the migration tables -/

/-- C1 counterexample: the claim says that for overlapping synonym groups
`\x7bA,B\x7d` and `\x7bB,C\x7d` the closure iterates until a fixed point, so that
afterwards `C ∈ children(A)`. Running the code's pass on exactly these two
groups (with an empty children table) leaves `C` out of `children(A)`: the
pass at defaults.py:1453-1456 is a single sweep, not a fixed-point loop. -/
theorem overlapping_groups_closure_not_transitive :
    ¬ ("C" ∈ tableGet (aliasClosure [["A", "B"], ["B", "C"]] []) "A") := by decide

/-- C1 (amended): the alias-closure pass at defaults.py:1453-1456 is a single
in-place sweep over the synonym groups, not an iteration to a fixed point.
For the overlapping groups `\x7bA,B\x7d` and `\x7bB,C\x7d` processed in that order it
yields `children(A) = [B]` (so `C ∉ children(A)`), `children(B) = [A, C]` and
`children(C) = [A, B]` (so `A ∈ children(C)`), and applying the pass a second
time still changes the table, so the single pass had not reached a fixed
point. -/
theorem alias_closure_single_pass_overlap :
    tableGet (aliasClosure [["A", "B"], ["B", "C"]] []) "A" = ["B"] ∧
    tableGet (aliasClosure [["A", "B"], ["B", "C"]] []) "B" = ["A", "C"] ∧
    tableGet (aliasClosure [["A", "B"], ["B", "C"]] []) "C" = ["A", "B"] ∧
    aliasClosure [["A", "B"], ["B", "C"]] (aliasClosure [["A", "B"], ["B", "C"]] []) ≠
      aliasClosure [["A", "B"], ["B", "C"]] [] := by decide

/-- C2: running the alias-closure pass a second time on the children table it
produced from `_rc_children` and `_rc_synonyms`, with the same synonym groups,
yields exactly the same child list for every key. -/
theorem alias_closure_idempotent_on_tables :
    ∀ k : String, tableGet (aliasClosure rcSynonyms rcChildrenClosed) k =
      tableGet rcChildrenClosed k := by
  intro k
  rw [rcChildrenClosed_eq, aliasClosure_fixes_lit]

/-- C3: for every synonym group in `_rc_synonyms` and every two distinct
members `a` and `b` of the group, after the closure pass `b ∈ children(a)`,
`a ∈ children(b)`, and `children(a)` minus `\x7bb\x7d` equals `children(b)` minus
`\x7ba\x7d` (the child lists are sorted and duplicate-free, so list equality is
set equality). -/
theorem synonym_groups_symmetric :
    ∀ g ∈ rcSynonyms, ∀ a ∈ g, ∀ b ∈ g, a ≠ b →
      b ∈ tableGet rcChildrenClosed a ∧ a ∈ tableGet rcChildrenClosed b ∧
      (tableGet rcChildrenClosed a).filter (fun s => s != b) =
        (tableGet rcChildrenClosed b).filter (fun s => s != a) := by
  simp only [rcChildrenClosed_eq]
  decide

/-- C3 witness: the symmetry theorem applied to the synonym group
`("cmap", "image.cmap", "cmap.sequential")` at the pair `cmap`/`image.cmap`. -/
theorem synonym_groups_symmetric_witness :
    "image.cmap" ∈ tableGet rcChildrenClosed "cmap" ∧
    "cmap" ∈ tableGet rcChildrenClosed "image.cmap" ∧
    (tableGet rcChildrenClosed "cmap").filter (fun s => s != "image.cmap") =
      (tableGet rcChildrenClosed "image.cmap").filter (fun s => s != "cmap") :=
  synonym_groups_symmetric ["cmap", "image.cmap", "cmap.sequential"] (by decide)
    "cmap" (by decide) "image.cmap" (by decide) (by decide)

/-- C4: no key of the children table produced by the pass lists itself as a
child; and a degenerate self-reference in the input is silently dropped by
the pass (here `A` initially lists itself, and the entry it gets from the
pass on the group `\x7bA,B\x7d` keeps `X` but drops `A`), not an error. -/
theorem closure_no_self_children :
    (∀ p ∈ rcChildrenClosed, p.1 ∉ p.2) ∧
    tableGet (aliasClosure [["A", "B"]] [("A", ["A", "X"])]) "A" = ["B", "X"] := by
  constructor
  · simp only [rcChildrenClosed_eq]
    decide
  · decide

/-- C4 witness: the no-self-loop theorem applied to the closed entry of
`grid.color`. -/
theorem closure_no_self_children_witness :
    ("grid.color", ["gridminor.color", "grid.labelcolor"]) ∈ rcChildrenClosed ∧
    "grid.color" ∉ (["gridminor.color", "grid.labelcolor"] : List String) :=
  have hm : ("grid.color", ["gridminor.color", "grid.labelcolor"]) ∈ rcChildrenClosed := by
    rw [rcChildrenClosed_eq]; decide
  ⟨hm, closure_no_self_children.1 _ hm⟩

/-- C5: migration chains are at most one hop. No new key named by a renamed
entry is itself a key of the removed or renamed table, and no removed or
renamed key is mentioned anywhere in (so in particular is not the target of)
any removed entry's replacement hint. -/
theorem migration_single_hop :
    (∀ p ∈ rcProplotRenamed, p.2.1 ∉ migratedKeys) ∧
    (∀ q ∈ rcProplotRemoved, ∀ k ∈ migratedKeys, mentionedIn k q.2.1 = false) := by
  constructor
  · decide
  · decide

/-- C5 witness: the one-hop theorem applied to the renamed entry
`abc.format → abc` and to the removed entry `geogrid.latmax` against the
retired key `rgbcycle`. -/
theorem migration_single_hop_witness :
    ("abc.format", "abc", "0.5.0") ∈ rcProplotRenamed ∧ "abc" ∉ migratedKeys ∧
    ("geogrid.latmax", "Please use ax.format(latmax=N) instead.", "0.6.0") ∈
      rcProplotRemoved ∧ "rgbcycle" ∈ migratedKeys ∧
    mentionedIn "rgbcycle" "Please use ax.format(latmax=N) instead." = false :=
  ⟨by decide, migration_single_hop.1 ("abc.format", "abc", "0.5.0") (by decide),
    by decide, by decide,
    migration_single_hop.2 ("geogrid.latmax", "Please use ax.format(latmax=N) instead.", "0.6.0")
      (by decide) "rgbcycle" (by decide)⟩

/-! ## Lemmas about the argument resolution helpers -/

/-- The function `_not_none` cannot raise when given no positional arguments. -/
theorem notNone_no_args_ok (kwargs : KwDict) (default : Option PyVal) :
    ∃ r, notNone [] kwargs default = .ok r := by
  unfold notNone
  by_cases h : kwargs = [] <;> simp [h]

/-- Resolution via `finishSlot` always succeeds and passes the remaining kwargs through. -/
theorem finishSlot_ok (st : KwDict × KwDict) :
    ∃ v, finishSlot st = .ok (v, st.2) := by
  obtain ⟨r, hr⟩ := notNone_no_args_ok st.1 none
  exact ⟨r.1, by simp [finishSlot, hr]⟩

/-- One slot resolution never raises the over-positional error. -/
theorem resolveSlot_ne_tooMany (spec : KeySpec) (a : Option PyVal) (kwargs : KwDict) :
    resolveSlot spec a kwargs ≠ .error .tooManyPositional := by
  unfold resolveSlot
  cases a with
  | none =>
    obtain ⟨v, hv⟩ := finishSlot_ok (buildOpts spec.keys [] kwargs)
    simp [hv]
  | some v =>
    cases hsk : spec.keys with
    | nil => simp
    | cons k0 ks =>
      obtain ⟨w, hw⟩ := finishSlot_ok (buildOpts spec.keys [(k0 ++ "_positional", some v)] kwargs)
      rw [hsk] at hw
      simp [hw]

/-- The slot loop never raises the over-positional error. -/
theorem resolveSlots_ne_tooMany (specs : List KeySpec) (args : List (Option PyVal))
    (kwargs : KwDict) :
    resolveSlots specs args kwargs ≠ .error .tooManyPositional := by
  induction specs generalizing args kwargs with
  | nil => simp [resolveSlots]
  | cons spec specs ih =>
    unfold resolveSlots
    cases hr : resolveSlot spec (args.headD none) kwargs with
    | error e =>
      have h2 := resolveSlot_ne_tooMany spec (args.headD none) kwargs
      rw [hr] at h2
      simpa using h2
    | ok p =>
      obtain ⟨v1, kw1⟩ := p
      cases hrec : resolveSlots specs args.tail kw1 with
      | error e =>
        have h2 := ih args.tail kw1
        rw [hrec] at h2
        simpa [hrec] using h2
      | ok q => simp [hrec]

/-! ## Claims about the argument resolution helpers -/

/-- C6: `_kwargs_to_args` raises the over-positional ValueError exactly when
more positional arguments are supplied than declared slots and the caller has
not opted into extras; in particular three positional arguments against two
declared slots with extras disallowed fail with it. -/
theorem kwargs_to_args_over_positional_iff :
    (∀ (options : List KeySpec) (args : List (Option PyVal)) (allowExtra : Bool)
        (kwargs : KwDict),
      kwargsToArgs options args allowExtra kwargs = .error .tooManyPositional ↔
        args.length > options.length ∧ allowExtra = false) ∧
    kwargsToArgs [.tuple ["color", "c"], .tuple ["width", "lw"]]
      [some (.str "a"), some (.str "b"), some (.str "c")] false [] =
      .error .tooManyPositional := by
  constructor
  · intro options args allowExtra kwargs
    unfold kwargsToArgs
    by_cases h : args.length > options.length ∧ allowExtra = false
    · simp [h]
    · rw [if_neg h]
      exact iff_of_false (resolveSlots_ne_tooMany _ _ _) h
  · rfl

/-- C7: for the slots `("color", "c")` and `("width", "lw", "linewidth")`,
positional arguments `("red",)` and keyword arguments mapping `linewidth` to
`2`, `_kwargs_to_args` resolves `color` to `"red"` and `width` to `2` and
returns an empty leftover keyword dictionary. -/
theorem kwargs_to_args_resolution_example :
    kwargsToArgs [.tuple ["color", "c"], .tuple ["width", "lw", "linewidth"]]
      [some (.str "red")] false [("linewidth", some (.int 2))] =
    .ok ([some (.str "red"), some (.int 2)], []) := rfl

/-- C8: when `_not_none` is called with keyword arguments only and at least
two of them are non-None, it does not raise: it returns the first non-None
keyword value in declaration order and signals the conflicting-alias warning
(the Bool in the result). -/
theorem not_none_conflict_picks_first_and_warns
    (kwargs : KwDict) (default : Option PyVal) (p : String × Option PyVal)
    (h2 : 2 ≤ (kwargs.filter (fun q => q.2.isSome)).length)
    (hf : kwargs.find? (fun q => q.2.isSome) = some p) :
    notNone [] kwargs default = .ok (p.2, true) := by
  have hne : kwargs ≠ [] := by
    rintro rfl
    simp at hf
  have hd : decide ((kwargs.filter (fun q => q.2.isSome)).length > 1) = true :=
    decide_eq_true h2
  unfold notNone
  simp [hne, hf, hd]

/-- C8 witness: the conflict theorem applied to the keyword dictionary
mapping `c` to `"red"` and `color` to `"blue"`: the first value wins and the
warning fires. -/
theorem not_none_conflict_picks_first_and_warns_witness :
    2 ≤ ((([("c", some (PyVal.str "red")), ("color", some (PyVal.str "blue"))] :
        KwDict).filter (fun q => q.2.isSome)).length) ∧
    notNone [] [("c", some (.str "red")), ("color", some (.str "blue"))] none =
      .ok (some (.str "red"), true) :=
  ⟨by decide,
    not_none_conflict_picks_first_and_warns
      [("c", some (.str "red")), ("color", some (.str "blue"))] none
      ("c", some (.str "red")) (by decide) (by decide)⟩

/-- Membership test `contains` distributes over append. -/
theorem contains_append_eq (l1 l2 : List String) (x : String) :
    (l1 ++ l2).contains x = (l1.contains x || l2.contains x) := by
  induction l1 with
  | nil => simp
  | cons a l ih => simp [ih, Bool.or_assoc]

/-- Popping a key from a dict whose keys are distinct filters that key out. -/
theorem popKey_snd (k : String) (kwargs : KwDict)
    (hnd : (kwargs.map Prod.fst).Nodup) :
    (popKey kwargs k).2 = kwargs.filter (fun p => !(p.1 == k)) := by
  induction kwargs with
  | nil => rfl
  | cons a rest ih =>
    rw [List.map_cons, List.nodup_cons] at hnd
    by_cases hak : (a.1 == k) = true
    · have hk : a.1 = k := by simpa using hak
      have hrest : rest.filter (fun p => !(p.1 == k)) = rest := by
        rw [List.filter_eq_self]
        intro p hp
        have hne : p.1 ≠ k := by
          intro hpk
          apply hnd.1
          rw [hk, ← hpk]
          exact List.mem_map_of_mem Prod.fst hp
        simpa using hne
      simp [popKey, List.find?_cons_of_pos _ hak, List.eraseP_cons_of_pos hak,
        List.filter_cons, hak, hrest]
    · have hfind : List.find? (fun p : String × Option PyVal => p.1 == k) (a :: rest) =
          List.find? (fun p => p.1 == k) rest :=
        List.find?_cons_of_neg rest hak
      have herase : List.eraseP (fun p : String × Option PyVal => p.1 == k) (a :: rest) =
          a :: List.eraseP (fun p => p.1 == k) rest :=
        List.eraseP_cons_of_neg hak
      have hstep : (popKey (a :: rest) k).2 = a :: (popKey rest k).2 := by
        unfold popKey
        rw [hfind]
        cases hq : List.find? (fun p : String × Option PyVal => p.1 == k) rest with
        | none => simp [hq]
        | some q => simp [hq, herase]
      rw [hstep, ih hnd.2]
      simp [List.filter_cons, hak]

/-- Filtering a dict with distinct keys keeps the keys distinct. -/
theorem nodup_keys_filter (pred : String × Option PyVal → Bool) (kwargs : KwDict)
    (hnd : (kwargs.map Prod.fst).Nodup) :
    ((kwargs.filter pred).map Prod.fst).Nodup :=
  List.Nodup.sublist (List.Sublist.map Prod.fst (List.filter_sublist kwargs)) hnd

/-- The kwargs left by the alias-popping loop are the input kwargs with the
declared keys filtered out (for distinct input keys). -/
theorem buildOpts_snd (keys : List String) (opts kwargs : KwDict)
    (hnd : (kwargs.map Prod.fst).Nodup) :
    (buildOpts keys opts kwargs).2 = kwargs.filter (fun p => !(keys.contains p.1)) := by
  induction keys generalizing opts kwargs with
  | nil => simp [buildOpts]
  | cons k ks ih =>
    have hpop := popKey_snd k kwargs hnd
    have hnd2 : (((popKey kwargs k).2).map Prod.fst).Nodup := by
      rw [hpop]; exact nodup_keys_filter _ kwargs hnd
    have hstep : buildOpts (k :: ks) opts kwargs =
        buildOpts ks (dictSet opts k (popKey kwargs k).1) (popKey kwargs k).2 := rfl
    rw [hstep, ih _ _ hnd2, hpop, List.filter_filter]
    apply List.filter_congr
    intro p hp
    by_cases hpk : p.1 = k <;> simp [hpk, Bool.not_or, Bool.and_comm]

/-- In a successful slot resolution, the remaining kwargs are the input
kwargs with the aliases of that slot filtered out. -/
theorem resolveSlot_ok_kwargs (spec : KeySpec) (a : Option PyVal) (kwargs : KwDict)
    (v : Option PyVal) (kw' : KwDict) (hnd : (kwargs.map Prod.fst).Nodup)
    (h : resolveSlot spec a kwargs = .ok (v, kw')) :
    kw' = kwargs.filter (fun p => !(spec.keys.contains p.1)) := by
  have key : ∀ opts : KwDict,
      finishSlot (buildOpts spec.keys opts kwargs) = .ok (v, kw') →
      kw' = kwargs.filter (fun p => !(spec.keys.contains p.1)) := by
    intro opts hfin
    obtain ⟨w, hw⟩ := finishSlot_ok (buildOpts spec.keys opts kwargs)
    rw [hw] at hfin
    injection hfin with h3
    have h4 : (buildOpts spec.keys opts kwargs).2 = kw' := congrArg Prod.snd h3
    rw [← h4, buildOpts_snd _ _ _ hnd]
  cases a with
  | none => exact key [] h
  | some v0 =>
    cases spec with
    | str s => exact key [(s ++ "_positional", some v0)] h
    | tuple l =>
      cases l with
      | nil => simp [resolveSlot, KeySpec.keys] at h
      | cons k0 ks => exact key [(k0 ++ "_positional", some v0)] h

/-- In a successful run of the slot loop, the remaining kwargs are the input
kwargs with every declared alias filtered out. -/
theorem resolveSlots_ok_kwargs (specs : List KeySpec) (args : List (Option PyVal))
    (kwargs : KwDict) (args' : List (Option PyVal)) (kw' : KwDict)
    (hnd : (kwargs.map Prod.fst).Nodup)
    (h : resolveSlots specs args kwargs = .ok (args', kw')) :
    kw' = kwargs.filter (fun p => !((declaredAliases specs).contains p.1)) := by
  induction specs generalizing args kwargs args' kw' with
  | nil =>
    injection h with h3
    have h4 : kwargs = kw' := congrArg Prod.snd h3
    rw [← h4]
    simp [declaredAliases]
  | cons spec specs ih =>
    rw [resolveSlots] at h
    cases hr : resolveSlot spec (args.headD none) kwargs with
    | error e => simp only [hr] at h; exact Except.noConfusion h
    | ok p =>
      obtain ⟨v1, kw1⟩ := p
      simp only [hr] at h
      cases hrec : resolveSlots specs args.tail kw1 with
      | error e => simp only [hrec] at h; exact Except.noConfusion h
      | ok q =>
        obtain ⟨vs, kw2⟩ := q
        simp only [hrec] at h
        injection h with h3
        have hkw : kw2 = kw' := congrArg Prod.snd h3
        have hk1 : kw1 = kwargs.filter (fun p => !(spec.keys.contains p.1)) :=
          resolveSlot_ok_kwargs spec (args.headD none) kwargs v1 kw1 hnd hr
        have hnd1 : (kw1.map Prod.fst).Nodup := by
          rw [hk1]; exact nodup_keys_filter _ kwargs hnd
        have h2 := ih args.tail kw1 vs kw2 hnd1 hrec
        rw [← hkw, h2, hk1, List.filter_filter]
        apply List.filter_congr
        intro p hp
        simp [declaredAliases, contains_append_eq, Bool.not_or, Bool.and_comm]

/-- C9: whenever `_kwargs_to_args` succeeds on a keyword dictionary with
distinct keys, every input keyword entry whose name is not a declared alias
of any slot appears unchanged in the returned keyword dictionary, and every
input keyword entry whose name is a declared alias is absent from it. -/
theorem kwargs_to_args_kwargs_frame
    (options : List KeySpec) (args : List (Option PyVal)) (allowExtra : Bool)
    (kwargs : KwDict) (args' : List (Option PyVal)) (kw' : KwDict)
    (hnd : (kwargs.map Prod.fst).Nodup)
    (h : kwargsToArgs options args allowExtra kwargs = .ok (args', kw')) :
    (∀ p ∈ kwargs, p.1 ∉ declaredAliases options → p ∈ kw') ∧
    (∀ p ∈ kwargs, p.1 ∈ declaredAliases options → p.1 ∉ kw'.map Prod.fst) := by
  have hres : resolveSlots options
      (args ++ List.replicate (options.length - args.length) none) kwargs =
      .ok (args', kw') := by
    unfold kwargsToArgs at h
    split at h
    · exact absurd h (by simp)
    · exact h
  have hkw := resolveSlots_ok_kwargs options _ kwargs args' kw' hnd hres
  subst hkw
  constructor
  · intro p hp hna
    refine List.mem_filter.mpr ⟨hp, ?_⟩
    simpa using hna
  · intro p hp ha hmem
    rw [List.mem_map] at hmem
    obtain ⟨q, hq, hq1⟩ := hmem
    have h2 := (List.mem_filter.mp hq).2
    rw [hq1] at h2
    simp at h2
    exact h2 ha

/-- C9 witness: the frame theorem applied to one slot `("color", "c")`, no
positional arguments, and the keyword dictionary mapping `c` to `"red"` and
`extra` to `1`: the alias `c` is consumed and `extra` passes through. -/
theorem kwargs_to_args_kwargs_frame_witness :
    ((([("c", some (PyVal.str "red")), ("extra", some (PyVal.int 1))] :
        KwDict).map Prod.fst).Nodup) ∧
    ((∀ p ∈ ([("c", some (PyVal.str "red")), ("extra", some (PyVal.int 1))] : KwDict),
        p.1 ∉ declaredAliases [KeySpec.tuple ["color", "c"]] →
        p ∈ ([("extra", some (PyVal.int 1))] : KwDict)) ∧
      (∀ p ∈ ([("c", some (PyVal.str "red")), ("extra", some (PyVal.int 1))] : KwDict),
        p.1 ∈ declaredAliases [KeySpec.tuple ["color", "c"]] →
        p.1 ∉ ([("extra", some (PyVal.int 1))] : KwDict).map Prod.fst)) :=
  ⟨by decide,
    kwargs_to_args_kwargs_frame [KeySpec.tuple ["color", "c"]] [] false
      [("c", some (PyVal.str "red")), ("extra", some (PyVal.int 1))]
      [some (PyVal.str "red")] [("extra", some (PyVal.int 1))] (by decide) rfl⟩

/-- C10: `_not_none` called with at least one positional and at least one
keyword argument raises its ValueError, whatever the values are (all-None
included). -/
theorem not_none_args_and_kwargs_raises
    (args : List (Option PyVal)) (kwargs : KwDict) (default : Option PyVal)
    (ha : args ≠ []) (hk : kwargs ≠ []) :
    notNone args kwargs default = .error .argsAndKwargs := by
  unfold notNone
  rw [if_pos ⟨ha, hk⟩]

/-- C10 witness: the mutual-exclusion theorem applied to a single all-None
positional argument and a single all-None keyword argument. -/
theorem not_none_args_and_kwargs_raises_witness :
    (([none] : List (Option PyVal)) ≠ [] ∧ ([("x", none)] : KwDict) ≠ []) ∧
    notNone [none] [("x", none)] none = .error .argsAndKwargs :=
  ⟨⟨by simp, by simp⟩,
    not_none_args_and_kwargs_raises [none] [("x", none)] none (by simp) (by simp)⟩

end Proplot
